import Mathlib

/-!
Verification of the orchestration core of the yt-finance pipeline
(`src/utils/hash.py`, `src/utils/retry.py`, `src/utils/text.py`,
`src/author/script_writer.py`, `src/publish/youtube_upload.py`,
`run_pipeline.py`) against its natural-language specification.

The Python code is shallowly embedded: each Python function becomes a
Lean definition of the same name (where Lean allows it); the filesystem
state a function touches is passed and returned explicitly.  SHA-256
itself is kept as an uninterpreted digest parameter `hashFn : String →
String`: every statement is either proved for all digest functions or
concerns only the digest pre-image, which the code builds concretely.
Times and durations are modelled over `Rat`; the equalities proved here
hold verbatim for the floating-point program as well, because they
assert that syntactically identical arithmetic expressions are equal.
-/

namespace YtFinance

/-! ## Hash store (`src/utils/hash.py`)

A hash file is `none` when the file does not exist on disk, otherwise
the list of its lines (without trailing newlines, which
`line.strip()` discards anyway). -/

abbrev HashFile := Option (List String)

/-- Python ASCII whitespace, as `str.strip()` and `str.split()` treat it. -/
def pyIsSpace (c : Char) : Bool :=
  c = ' ' || c = '\t' || c = '\n' || c = '\r' || c = '\x0b' || c = '\x0c'

/-- Python `s.strip()`: drop leading and trailing whitespace. -/
def pyStrip (s : String) : String :=
  String.mk (((s.data.dropWhile pyIsSpace).reverse.dropWhile pyIsSpace).reverse)

/-- Split a character list at every character satisfying `p`, keeping
empty segments (the semantics of `re.split` on a single-character
class). -/
def splitChars (p : Char → Bool) : List Char → List (List Char)
  | [] => [[]]
  | c :: cs =>
      if p c then [] :: splitChars p cs
      else
        match splitChars p cs with
        | [] => [[c]]
        | seg :: segs => (c :: seg) :: segs

/-- Model of `check_duplicate_content(content_hash, hash_file_path)`:
returns `False` when the file does not exist, otherwise builds
`set(line.strip() for line in f if line.strip())` and tests membership
of `content_hash` in that set.  (The `except (FileNotFoundError,
IOError)` arm concerns I/O races outside this model.) -/
def check_duplicate_content (content_hash : String) (file : HashFile) : Bool :=
  match file with
  | none => false
  | some lines =>
      let existing_hashes := (lines.map pyStrip).filter (fun l => l ≠ "")
      existing_hashes.contains content_hash

/-- Model of `save_content_hash(content_hash, hash_file_path, metadata)`:
appends one line to the file (creating it if absent).  `metadata` is
`some s` when the Python dict is truthy (non-empty) and `s` is its
`json.dumps` serialization; a `None` or empty dict is `none`.  The
written line is `content_hash` alone, or `f"{content_hash}|{metadata_str}"`. -/
def save_content_hash (content_hash : String) (file : HashFile)
    (metadata : Option String) : HashFile :=
  let hash_entry :=
    match metadata with
    | some metadata_str => content_hash ++ "|" ++ metadata_str
    | none => content_hash
  some (file.getD [] ++ [hash_entry])

/-! ## Canonicalized fingerprint pre-images (`generate_script_hash`)

`generate_content_hash(content)` is `sha256(content.encode('utf-8')).hexdigest()`.
We model the pre-image `content` exactly and keep the digest abstract.
The helpers below reproduce `json.dumps(key_fields, sort_keys=True,
ensure_ascii=False)` for the dicts the code actually builds (string and
list-of-string values, default separators `', '` and `': '`). -/

def hexDigitChar (n : Nat) : Char :=
  if n < 10 then Char.ofNat (48 + n) else Char.ofNat (87 + n)

def hex4 (n : Nat) : String :=
  String.mk [hexDigitChar (n / 4096 % 16), hexDigitChar (n / 256 % 16),
             hexDigitChar (n / 16 % 16), hexDigitChar (n % 16)]

/-- Escaping of one character inside a JSON string literal, as
`json.dumps` emits it with `ensure_ascii=False`. -/
def jsonEscapeChar (c : Char) : String :=
  if c = '"' then "\\\""
  else if c = '\\' then "\\\\"
  else if c = '\n' then "\\n"
  else if c = '\r' then "\\r"
  else if c = '\t' then "\\t"
  else if c = '\x08' then "\\b"
  else if c = '\x0c' then "\\f"
  else if c.toNat < 32 then "\\u" ++ hex4 c.toNat
  else String.singleton c

/-- A JSON string literal for `s`. -/
def jsonString (s : String) : String :=
  "\"" ++ String.join (s.data.map jsonEscapeChar) ++ "\""

/-- A JSON array of string literals, with `json.dumps` default `', '`
separators. -/
def jsonStringList (xs : List String) : String :=
  "[" ++ String.intercalate ", " (xs.map jsonString) ++ "]"

/-- The dict argument of `generate_script_hash`.  Every field is
optional because the function reads keys with `.get(key, default)` and
its caller in `ScriptWriter.generate_script` passes a dict holding only
`title`, `summary` and `keywords`. -/
structure ScriptFields where
  title : Option String := none
  summary : Option String := none
  keywords : Option (List String) := none
  content : Option String := none
  hook : Option String := none
  cta : Option String := none
deriving DecidableEq, Repr

/-- The digest pre-image built by `generate_script_hash(script)`:
`json.dumps({'content': script.get('content',''), 'cta': …, 'hook': …,
'keywords': script.get('keywords', [])}, sort_keys=True,
ensure_ascii=False)`.  Sorted key order is `content, cta, hook,
keywords`. -/
def generate_script_hash_input (script : ScriptFields) : String :=
  "\x7b\"content\": " ++ jsonString (script.content.getD "")
    ++ ", \"cta\": " ++ jsonString (script.cta.getD "")
    ++ ", \"hook\": " ++ jsonString (script.hook.getD "")
    ++ ", \"keywords\": " ++ jsonStringList (script.keywords.getD [])
    ++ "\x7d"

/-- Model of `generate_script_hash` with the digest abstract:
`generate_content_hash(json.dumps(key_fields, …))`. -/
def generate_script_hash (hashFn : String → String) (script : ScriptFields) : String :=
  hashFn (generate_script_hash_input script)

/-- The dict `ScriptWriter.generate_script` passes to
`generate_script_hash` at the script-stage dedup checkpoint:
`{'title': work_item['title'], 'summary': work_item['summary'],
'keywords': work_item['keywords']}`. -/
def script_checkpoint_fields (title summary : String) (keywords : List String) :
    ScriptFields :=
  { title := some title, summary := some summary, keywords := some keywords }

/-! ## Record-level view of the hash log (`load_content_hashes`,
`cleanup_old_hashes`)

`load_content_hashes` parses each line back into `(hash, metadata)`
(splitting on the first `|`); `cleanup_old_hashes` filters that parsed
view and rewrites the file.  We model the pruning pass directly on the
parsed record list; `timestamp` is the numeric value
`metadata.get('timestamp', 0)` reads (absent when the key is missing),
and `extra` abstracts the remaining metadata fields. -/

structure HashMetadata where
  timestamp : Option Rat := none
  extra : List (String × String) := []
deriving DecidableEq, Repr

/-- Model of `metadata.get('timestamp', 0)` in `cleanup_old_hashes`. -/
def metadata_timestamp (m : HashMetadata) : Rat :=
  m.timestamp.getD 0

/-- Model of `cleanup_old_hashes(hash_file_path, max_age_days)` on the parsed
record view: `cutoff_time = time.time() - max_age_days * 24 * 60 * 60`;
a record survives iff `metadata.get('timestamp', 0) > cutoff_time`
(the surviving records are then rewritten to the file via
`save_content_hash`).  `now` stands for `time.time()`. -/
def cleanup_old_hashes (now : Rat) (max_age_days : Rat)
    (hashes : List (String × HashMetadata)) : List (String × HashMetadata) :=
  let cutoff_time := now - max_age_days * 24 * 60 * 60
  hashes.filter (fun hm => metadata_timestamp hm.2 > cutoff_time)

/-! ## File digests (`generate_file_hash`, `verify_file_integrity`)

The filesystem is a map from path to file bytes (`none` when the file
does not exist).  The SHA-256 digest of the bytes is the uninterpreted
`hashFn`; the chunked `hash_sha256.update` loop digests exactly the
whole content. -/

/-- Model of `generate_file_hash(file_path)`: digest of the file bytes, or
`""` when opening raises `FileNotFoundError`. -/
def generate_file_hash (hashFn : List Nat → String)
    (fs : String → Option (List Nat)) (file_path : String) : String :=
  match fs file_path with
  | none => ""
  | some content => hashFn content

/-- Model of `verify_file_integrity(file_path, expected_hash)`:
`generate_file_hash(file_path) == expected_hash`. -/
def verify_file_integrity (hashFn : List Nat → String)
    (fs : String → Option (List Nat)) (file_path : String)
    (expected_hash : String) : Bool :=
  generate_file_hash hashFn fs file_path == expected_hash

/-! ## Text utilities (`src/utils/text.py`) -/

/-- Sentence-terminal punctuation of the pattern `[.!?]+`. -/
def isSentencePunct (c : Char) : Bool :=
  c = '.' || c = '!' || c = '?'

/-- Model of `re.split(r'[.!?]+', text)`, splitting at every single
punctuation character.  A run of `n` punctuation characters yields
`n - 1` empty segments here where the regex yields none, but
`extract_sentences` discards empty segments either way, so the two
agree after its filter. -/
def re_split_punct (text : String) : List String :=
  (splitChars isSentencePunct text.data).map String.mk

/-- Model of `extract_sentences(text)`:
`[s.strip() for s in re.split(r'[.!?]+', text) if s.strip()]`
(the comprehension keeps the stripped segment and drops falsy ones). -/
def extract_sentences (text : String) : List String :=
  ((re_split_punct text).map pyStrip).filter (fun s => s ≠ "")

/-- Python `s.split()` with no argument: split on whitespace runs,
discarding empty pieces. -/
def py_split_whitespace (s : String) : List String :=
  ((splitChars pyIsSpace s.data).map String.mk).filter (fun w => w ≠ "")

/-! ## Subtitle timing allocator
(`ScriptWriter._generate_subtitle_timings`) -/

structure SubtitleCue where
  text : String
  start_time : Rat
  end_time : Rat
  duration : Rat
deriving DecidableEq, Repr

/-- The per-sentence duration `(word_count / words_per_minute) * 60`
with `words_per_minute = 200` and `word_count = len(sentence.split())`. -/
def sentence_duration (sentence : String) : Rat :=
  (((py_split_whitespace sentence).length : Rat) / 200) * 60

/-- The loop body of `_generate_subtitle_timings`, threading
`current_time` through the sentence list. -/
def subtitle_timings_from (current_time : Rat) : List String → List SubtitleCue
  | [] => []
  | sentence :: rest =>
      let duration := sentence_duration sentence
      { text := sentence
        start_time := current_time
        end_time := current_time + duration
        duration := duration } :: subtitle_timings_from (current_time + duration) rest

/-- Model of `ScriptWriter._generate_subtitle_timings(script_content)`:
sentences from `extract_sentences`, `current_time` starting at `0`. -/
def generate_subtitle_timings (script_content : String) : List SubtitleCue :=
  subtitle_timings_from 0 (extract_sentences script_content)

/-! ## Retry executor (`src/utils/retry.py`)

An operation is modelled as `op : Nat → Except ε α`, giving the outcome
of its `n`-th invocation (counting from 0); the sleeps between attempts
only affect timing and are not modelled.  `RetryManager.execute`,
`retry`'s `async_wrapper` and its `sync_wrapper` run the identical
`for attempt in range(max_attempts)` loop; we embed it once. -/

structure RetryManager where
  max_attempts : Nat := 3
  delay : Rat := 1
  backoff_factor : Rat := 2
deriving Repr

/-- The wrapped failure: `RetryError(f"... failed after {max_attempts}
attempts")` raised `from` the last underlying error (`none` only when
the loop body never ran, i.e. `max_attempts = 0`). -/
structure RetryFailure (ε : Type) where
  attempts : Nat
  cause : Option ε
deriving DecidableEq, Repr

/-- The retry loop from iteration `attempt` on, with `fuel` the number
of loop iterations left (`fuel = max_attempts - attempt` at every
call).  Returns the outcome together with the number of invocations of
the operation performed.  `fuel = 0` is the fall-through past the loop:
`raise RetryError(...) from last_exception`. -/
def retry_loop {ε α : Type} (op : Nat → Except ε α) (max_attempts : Nat) :
    Nat → Nat → Option ε → Except (RetryFailure ε) α × Nat
  | 0, _, last_exception => (.error ⟨max_attempts, last_exception⟩, 0)
  | fuel + 1, attempt, _ =>
      match op attempt with
      | .ok result => (.ok result, 1)
      | .error e =>
          if attempt = max_attempts - 1 then
            (.error ⟨max_attempts, some e⟩, 1)
          else
            let rest := retry_loop op max_attempts fuel (attempt + 1) (some e)
            (rest.1, rest.2 + 1)

/-- Model of `RetryManager.execute(func, ...)`: run the retry loop from attempt
0 with no prior exception. -/
def RetryManager.execute {ε α : Type} (m : RetryManager) (op : Nat → Except ε α) :
    Except (RetryFailure ε) α × Nat :=
  retry_loop op m.max_attempts m.max_attempts 0 none

/-! ## Pipeline (`run_pipeline.py`, `ScriptWriter.generate_script`,
`YouTubeUploader.upload_video`)

External collaborator calls are oracles: each field of `StageOracles`
gives the outcome (`.ok` value or the `str(e)` of a raised exception,
after any `@retry` wrapping) of that call for the item being processed.
The statuses are the exact strings the code assigns. -/

structure Config where
  script_length : Rat := 60
  language : String := "en"
  tone : String := "professional"

structure Script where
  id : String
  work_item_id : String
  title : String
  hook : String
  content : String
  cta : String
  keywords : List String
  duration : Rat
  subtitle_timings : List SubtitleCue
  language : String
  tone : String
  generated_at : String
  script_hash : String

structure WorkItem where
  id : String
  title : String
  summary : String
  keywords : List String
  source : String
  timestamp : String
  status : String
  script : Option (Option Script) := none
  audio_path : Option String := none
  broll_paths : Option (List String) := none
  video_path : Option String := none
  thumbnail_path : Option String := none
  youtube_url : Option (Option String) := none
  error : Option String := none

/-- Outcomes of the external calls made while processing one work item.
`hook` and `cta` receive the generated script content (their other
argument, the work item itself, is fixed per oracle set). -/
structure StageOracles where
  script_content : Except String String
  hook : String → Except String String
  cta : String → Except String String
  generate_audio : String → Except String String
  download_footage : List String → Rat → Except String (List String)
  compose_video : String → List String → List SubtitleCue → Except String String
  generate_thumbnail : String → List String → Except String String
  upload_video_file : String → Except String String
  upload_thumbnail : String → String → Except String Unit
  thumbnail_file_exists : Bool := true

/-- The serialized metadata dict `{'timestamp': datetime.now().isoformat(),
'title': …, 'work_item_id': …}` recorded next to a script hash
(`json.dumps` keeps insertion order). -/
def script_hash_metadata_str (nowIso title work_item_id : String) : String :=
  "\x7b\"timestamp\": " ++ jsonString nowIso
    ++ ", \"title\": " ++ jsonString title
    ++ ", \"work_item_id\": " ++ jsonString work_item_id ++ "\x7d"

structure GenScriptResult where
  result : Except String (Option Script)
  script_store : HashFile
  invoked : List String

/-- Model of `ScriptWriter.generate_script(work_item)`.  The dedup fingerprint
is `generate_script_hash({'title': …, 'summary': …, 'keywords': …})`;
on a hit the function logs and returns `None`.  Otherwise the three
generation calls run in order (any exception propagates to the
caller), the subtitle timings are computed, the script dict is built,
and the hash is recorded with non-empty metadata.  `invoked` lists the
external calls performed. -/
def generate_script (hashFn : String → String) (cfg : Config) (nowIso : String)
    (o : StageOracles) (script_store : HashFile) (work_item : WorkItem) :
    GenScriptResult :=
  let script_hash := generate_script_hash hashFn
    (script_checkpoint_fields work_item.title work_item.summary work_item.keywords)
  if check_duplicate_content script_hash script_store then
    ⟨.ok none, script_store, []⟩
  else
    match o.script_content with
    | .error e => ⟨.error e, script_store, ["_generate_script_content"]⟩
    | .ok script_content =>
        match o.hook script_content with
        | .error e => ⟨.error e, script_store,
            ["_generate_script_content", "_generate_hook"]⟩
        | .ok hook =>
            match o.cta script_content with
            | .error e => ⟨.error e, script_store,
                ["_generate_script_content", "_generate_hook", "_generate_cta"]⟩
            | .ok cta =>
                let script : Script :=
                  { id := "script_" ++ work_item.id
                    work_item_id := work_item.id
                    title := work_item.title
                    hook := hook
                    content := script_content
                    cta := cta
                    keywords := work_item.keywords
                    duration := cfg.script_length
                    subtitle_timings := generate_subtitle_timings script_content
                    language := cfg.language
                    tone := cfg.tone
                    generated_at := nowIso
                    script_hash := script_hash }
                let store := save_content_hash script_hash script_store
                  (some (script_hash_metadata_str nowIso work_item.title work_item.id))
                ⟨.ok (some script), store,
                  ["_generate_script_content", "_generate_hook", "_generate_cta"]⟩

/-- The serialized metadata dict recorded next to an upload hash;
`nowStr` is the serialized `asyncio.get_event_loop().time()` value. -/
def upload_metadata_str (nowStr title video_id : String) : String :=
  "\x7b\"timestamp\": " ++ nowStr
    ++ ", \"title\": " ++ jsonString title
    ++ ", \"video_id\": " ++ jsonString video_id
    ++ ", \"url\": " ++ jsonString ("https://www.youtube.com/watch?v=" ++ video_id)
    ++ "\x7d"

structure UploadResult where
  result : Except String (Option String)
  upload_store : HashFile
  invoked : List String

/-- Model of `YouTubeUploader.upload_video(video_path, thumbnail_path, script)`.
The publish-stage fingerprint is
`generate_content_hash(f"{script['title']}|{script['content']}")`; on a
hit the method logs and returns `None`.  Otherwise the video file is
uploaded, the thumbnail is uploaded when its file exists, the hash is
recorded with non-empty metadata, and the watch URL is returned. -/
def upload_video (hashFn : String → String) (nowStr : String) (o : StageOracles)
    (upload_store : HashFile) (video_path thumbnail_path : String)
    (script : Script) : UploadResult :=
  let content_hash := hashFn (script.title ++ "|" ++ script.content)
  if check_duplicate_content content_hash upload_store then
    ⟨.ok none, upload_store, []⟩
  else
    match o.upload_video_file video_path with
    | .error e => ⟨.error e, upload_store, ["_upload_video_file"]⟩
    | .ok video_id =>
        match (if o.thumbnail_file_exists
               then o.upload_thumbnail video_id thumbnail_path
               else .ok ()) with
        | .error e => ⟨.error e, upload_store,
            ["_upload_video_file", "_upload_thumbnail"]⟩
        | .ok _ =>
            let store := save_content_hash content_hash upload_store
              (some (upload_metadata_str nowStr script.title video_id))
            ⟨.ok (some ("https://www.youtube.com/watch?v=" ++ video_id)), store,
              (if o.thumbnail_file_exists
               then ["_upload_video_file", "_upload_thumbnail"]
               else ["_upload_video_file"])⟩

/-- Text of `str(e)` for the `TypeError` raised by `script["content"]` when
`script` is `None` (the quotes of CPython's message are written as
escapes). -/
def none_type_subscript_error : String :=
  "\x27NoneType\x27 object is not subscriptable"

structure ProcessResult where
  work_item : WorkItem
  script_store : HashFile
  upload_store : HashFile
  invoked : List String

/-- Model of `YouTubeAIPipeline.process_work_item(work_item)`: the six-stage
`try` block; any exception is caught by the trailing
`except Exception`, which sets `status = "failed"` and records
`str(e)` in `error`.  Note that after `generate_script` returns `None`
(script-stage dedup hit) the item first gets
`status = "script_generated"` and then `script["content"]` raises. -/
def process_work_item (hashFn : String → String) (cfg : Config)
    (nowIso nowStr : String) (o : StageOracles)
    (script_store upload_store : HashFile) (work_item : WorkItem) :
    ProcessResult :=
  let gs := generate_script hashFn cfg nowIso o script_store work_item
  match gs.result with
  | .error e =>
      ⟨{ work_item with status := "failed", error := some e },
        gs.script_store, upload_store, gs.invoked⟩
  | .ok script_opt =>
      let item1 := { work_item with script := some script_opt, status := "script_generated" }
      match script_opt with
      | none =>
          ⟨{ item1 with status := "failed", error := some none_type_subscript_error },
            gs.script_store, upload_store, gs.invoked⟩
      | some script =>
          match o.generate_audio script.content with
          | .error e =>
              ⟨{ item1 with status := "failed", error := some e },
                gs.script_store, upload_store, gs.invoked ++ ["generate_audio"]⟩
          | .ok audio_path =>
              let item2 := { item1 with audio_path := some audio_path, status := "audio_generated" }
              match o.download_footage script.keywords script.duration with
              | .error e =>
                  ⟨{ item2 with status := "failed", error := some e },
                    gs.script_store, upload_store,
                    gs.invoked ++ ["generate_audio", "download_footage"]⟩
              | .ok broll_paths =>
                  let item3 := { item2 with broll_paths := some broll_paths, status := "broll_downloaded" }
                  match o.compose_video audio_path broll_paths script.subtitle_timings with
                  | .error e =>
                      ⟨{ item3 with status := "failed", error := some e },
                        gs.script_store, upload_store,
                        gs.invoked ++ ["generate_audio", "download_footage", "compose_video"]⟩
                  | .ok video_path =>
                      let item4 := { item3 with video_path := some video_path, status := "video_composed" }
                      match o.generate_thumbnail work_item.title script.keywords with
                      | .error e =>
                          ⟨{ item4 with status := "failed", error := some e },
                            gs.script_store, upload_store,
                            gs.invoked ++ ["generate_audio", "download_footage",
                              "compose_video", "generate_thumbnail"]⟩
                      | .ok thumbnail_path =>
                          let item5 := { item4 with thumbnail_path := some thumbnail_path, status := "thumbnail_generated" }
                          let uv := upload_video hashFn nowStr o upload_store
                            video_path thumbnail_path script
                          match uv.result with
                          | .error e =>
                              ⟨{ item5 with status := "failed", error := some e },
                                gs.script_store, uv.upload_store,
                                gs.invoked ++ ["generate_audio", "download_footage",
                                  "compose_video", "generate_thumbnail"] ++ uv.invoked⟩
                          | .ok url_opt =>
                              ⟨{ item5 with youtube_url := some url_opt, status := "uploaded" },
                                gs.script_store, uv.upload_store,
                                gs.invoked ++ ["generate_audio", "download_footage",
                                  "compose_video", "generate_thumbnail"] ++ uv.invoked⟩

structure RunResult where
  work_items : List WorkItem
  script_store : HashFile
  upload_store : HashFile

/-- Model of `YouTubeAIPipeline.run_pipeline()` after ingestion: `for work_item
in work_items: await self.process_work_item(work_item)`, threading the
two hash files (the only shared state).  The oracles may differ per
item (`o` is indexed by the item). -/
def run_pipeline (hashFn : String → String) (cfg : Config)
    (nowIso nowStr : String) (o : WorkItem → StageOracles)
    (script_store upload_store : HashFile) : List WorkItem → RunResult
  | [] => ⟨[], script_store, upload_store⟩
  | work_item :: rest =>
      let p := process_work_item hashFn cfg nowIso nowStr (o work_item)
        script_store upload_store work_item
      let r := run_pipeline hashFn cfg nowIso nowStr o
        p.script_store p.upload_store rest
      ⟨p.work_item :: r.work_items, r.script_store, r.upload_store⟩

/-! ## Concrete fixtures used by witnesses and counterexamples -/

/-- An oracle set where every external call succeeds. -/
def oracles_ok : StageOracles :=
  { script_content := .ok "Hello world."
    hook := fun _ => .ok "hk"
    cta := fun _ => .ok "ct"
    generate_audio := fun _ => .ok "audio.mp3"
    download_footage := fun _ _ => .ok ["broll.mp4"]
    compose_video := fun _ _ _ => .ok "video.mp4"
    generate_thumbnail := fun _ _ => .ok "thumb.png"
    upload_video_file := fun _ => .ok "vid123"
    upload_thumbnail := fun _ _ => .ok () }

/-- Like `oracles_ok` but the footage download raises. -/
def oracles_broll_fail : StageOracles :=
  { oracles_ok with download_footage := fun _ _ => .error "pexels down" }

def item_fed : WorkItem :=
  { id := "1", title := "TA", summary := "S", keywords := ["k"],
    source := "src", timestamp := "ts", status := "pending" }

def item_ecb : WorkItem :=
  { id := "2", title := "TB", summary := "S2", keywords := ["k2"],
    source := "src", timestamp := "ts", status := "pending" }

/-- A script-namespace hash file already holding `item_fed`'s
script-stage fingerprint as a bare line (for the identity digest). -/
def script_dup_store : HashFile :=
  some [generate_script_hash_input (script_checkpoint_fields "TA" "S" ["k"])]

/-- An upload-namespace hash file already holding `item_fed`'s
publish-stage fingerprint `title|content` as a bare line (for the
identity digest and the script content of `oracles_ok`). -/
def upload_dup_store : HashFile :=
  some ["TA|Hello world."]

/-! # Theorems -/

/-- C1: the round-trip claim fails on the code.  In a fresh namespace
`check_duplicate_content` reports nothing, and a hash saved with
`metadata = None` is found again; but a hash saved with non-empty
metadata is stored as the line `hash|{json}`, and
`check_duplicate_content` compares whole stripped lines against the
bare hash, so the lookup returns `False` — the recorded fingerprint is
never reported as existing.  (`load_content_hashes` splits the same
line on `|`, showing the lookup's whole-line comparison is the slip.) -/
theorem C1_hash_store_roundtrip_eval :
    check_duplicate_content "abc" none = false
    ∧ check_duplicate_content "abc" (save_content_hash "abc" none none) = true
    ∧ save_content_hash "abc" none (some "\x7b\"timestamp\": 1\x7d")
        = some ["abc|\x7b\"timestamp\": 1\x7d"]
    ∧ check_duplicate_content "abc"
        (save_content_hash "abc" none (some "\x7b\"timestamp\": 1\x7d")) = false := by
  refine ⟨by decide, by decide, rfl, by decide⟩

/-- C2: the script-stage fingerprint is not a function of title,
summary and keywords.  `generate_script_hash` reads the keys `content`,
`hook`, `cta`, `keywords` of its argument, while the checkpoint passes
`{'title', 'summary', 'keywords'}`, so the digest pre-image — and hence
the SHA-256 digest, for every digest function — is identical for work
items differing only in title and summary; only the keywords enter the
key set. -/
theorem C2_script_fingerprint_ignores_title_summary :
    generate_script_hash_input (script_checkpoint_fields "Fed raises rates" "Summary one" ["rates"])
      = generate_script_hash_input (script_checkpoint_fields "Fed cuts rates" "Summary two" ["rates"])
    ∧ ("Fed raises rates" : String) ≠ "Fed cuts rates"
    ∧ (∀ hashFn : String → String,
        generate_script_hash hashFn (script_checkpoint_fields "Fed raises rates" "Summary one" ["rates"])
          = generate_script_hash hashFn (script_checkpoint_fields "Fed cuts rates" "Summary two" ["rates"]))
    ∧ generate_script_hash_input (script_checkpoint_fields "T" "S" ["a"])
      ≠ generate_script_hash_input (script_checkpoint_fields "T" "S" ["b"]) := by
  refine ⟨rfl, by decide, fun hashFn => rfl, by decide⟩

/-- C10: for a path with no file, `generate_file_hash` returns the
empty string instead of raising, and `verify_file_integrity` succeeds
exactly when the expected hash is the empty string — a missing file
never matches a real (non-empty) digest. -/
theorem C10_missing_file_hash_empty (hashFn : List Nat → String)
    (fs : String → Option (List Nat)) (file_path expected_hash : String)
    (h : fs file_path = none) :
    generate_file_hash hashFn fs file_path = ""
    ∧ (verify_file_integrity hashFn fs file_path expected_hash = true
        ↔ expected_hash = "") := by
  constructor
  · unfold generate_file_hash
    rw [h]
  · unfold verify_file_integrity generate_file_hash
    rw [h, beq_iff_eq]
    exact eq_comm

/-- Witness for C10 at a concrete empty filesystem. -/
theorem C10_witness :
    generate_file_hash (fun _ => "d") (fun _ => none) "video.mp4" = ""
    ∧ (verify_file_integrity (fun _ => "d") (fun _ => none) "video.mp4" "abc" = true
        ↔ ("abc" : String) = "") :=
  C10_missing_file_hash_empty (fun _ => "d") (fun _ => none) "video.mp4" "abc" rfl

/-- C4: with `max_attempts = 3`, an operation failing on every call is
invoked exactly 3 times and the wrapped `RetryError` carries the last
underlying error (the one from call 2, counting from 0); an operation
failing once and succeeding on its 2nd call is invoked exactly 2 times
and its result is returned unchanged. -/
theorem C4_retry_attempt_bound {ε α : Type} (m : RetryManager)
    (hm : m.max_attempts = 3) (op : Nat → Except ε α) :
    (∀ errs : Nat → ε, (∀ n, op n = .error (errs n)) →
        m.execute op = (.error ⟨3, some (errs 2)⟩, 3))
    ∧ (∀ (e : ε) (v : α), op 0 = .error e → op 1 = .ok v →
        m.execute op = (.ok v, 2)) := by
  constructor
  · intro errs h
    have hop : op = fun n => .error (errs n) := funext h
    subst hop
    rw [RetryManager.execute, hm]
    rfl
  · intro e v h0 h1
    have s1 : m.execute op = retry_loop op 3 (2 + 1) 0 none := by
      rw [RetryManager.execute, hm]
    rw [s1, retry_loop, h0]
    show ((retry_loop op 3 (1 + 1) 1 (some e)).1,
        (retry_loop op 3 (1 + 1) 1 (some e)).2 + 1)
      = ((Except.ok v : Except (RetryFailure ε) α), 2)
    rw [retry_loop, h1]

/-- Witness for C4: an always-failing operation and a
succeeds-on-second-call operation, under the default policy with
`max_attempts = 3`. -/
theorem C4_witness :
    ({ max_attempts := 3 } : RetryManager).execute
        (fun n => (.error (toString n) : Except String Nat))
      = (.error ⟨3, some "2"⟩, 3)
    ∧ ({ max_attempts := 3 } : RetryManager).execute
        (fun n => if n = 0 then .error "boom" else (.ok 7 : Except String Nat))
      = (.ok 7, 2) := by
  constructor
  · exact (C4_retry_attempt_bound { max_attempts := 3 } rfl _).1
      (fun n => toString n) (fun n => rfl)
  · exact (C4_retry_attempt_bound { max_attempts := 3 } rfl _).2 "boom" 7 rfl rfl

/-! ### Supporting lemmas on the subtitle allocator loop -/

/-- The cue texts are exactly the input segments, in order. -/
theorem subtitle_timings_from_map_text (t : Rat) (l : List String) :
    (subtitle_timings_from t l).map SubtitleCue.text = l := by
  induction l generalizing t with
  | nil => rfl
  | cons s rest ih => simp [subtitle_timings_from, ih]

/-- The loop yields no cues exactly on an empty segment list. -/
theorem subtitle_timings_from_eq_nil (t : Rat) (l : List String) :
    subtitle_timings_from t l = [] ↔ l = [] := by
  cases l with
  | nil => simp [subtitle_timings_from]
  | cons s rest => simp [subtitle_timings_from]

/-- The first cue the loop produces starts at the running time the
loop was entered with. -/
theorem subtitle_timings_from_head_start (t : Rat) (l : List String)
    (c : SubtitleCue) (cs : List SubtitleCue)
    (h : subtitle_timings_from t l = c :: cs) : c.start_time = t := by
  cases l with
  | nil => exact absurd h (by simp [subtitle_timings_from])
  | cons s rest =>
      rw [subtitle_timings_from] at h
      injection h with h1 h2
      subst h1
      rfl

/-- Adjacent cues are glued: each cue starts where the previous one
ends. -/
theorem subtitle_timings_from_chain (t : Rat) (l : List String) :
    List.Chain' (fun a b => b.start_time = a.end_time) (subtitle_timings_from t l) := by
  induction l generalizing t with
  | nil => simp [subtitle_timings_from]
  | cons s rest ih =>
      rw [subtitle_timings_from]
      refine List.chain'_cons'.mpr ⟨?_, ih _⟩
      intro y hy
      cases hrest : subtitle_timings_from (t + sentence_duration s) rest with
      | nil => rw [hrest] at hy; simp at hy
      | cons c cs =>
          rw [hrest] at hy
          simp at hy
          subst hy
          exact subtitle_timings_from_head_start _ _ _ _ hrest

/-- The last cue ends at the entry time plus the sum of all segment
durations. -/
theorem subtitle_timings_from_getLast (l : List String) :
    ∀ t : Rat, l ≠ [] →
    (subtitle_timings_from t l).getLast?.map SubtitleCue.end_time
      = some (t + (l.map sentence_duration).sum) := by
  induction l with
  | nil => intro t h; exact absurd rfl h
  | cons a rest ih =>
      intro t _
      cases rest with
      | nil => simp [subtitle_timings_from]
      | cons b rest2 =>
          have hstep : subtitle_timings_from t (a :: b :: rest2)
              = { text := a, start_time := t, end_time := t + sentence_duration a,
                  duration := sentence_duration a }
                :: subtitle_timings_from (t + sentence_duration a) (b :: rest2) := rfl
          have h2 : subtitle_timings_from (t + sentence_duration a) (b :: rest2)
              = { text := b, start_time := t + sentence_duration a,
                  end_time := t + sentence_duration a + sentence_duration b,
                  duration := sentence_duration b }
                :: subtitle_timings_from (t + sentence_duration a + sentence_duration b) rest2 := rfl
          rw [hstep, h2, List.getLast?_cons_cons, ← h2,
            ih (t + sentence_duration a) (by simp)]
          congr 1
          simp only [List.map_cons, List.sum_cons]
          ring

/-- C5: the cue sequence consists of the non-empty sentence segments
in order; the first cue (when any) starts at 0; each subsequent cue
starts exactly where the previous one ends; and a text with zero
non-empty segments yields the empty cue sequence rather than an
error. -/
theorem C5_subtitle_cue_contiguity (s : String) :
    (generate_subtitle_timings s).map SubtitleCue.text = extract_sentences s
    ∧ (generate_subtitle_timings s).head?.map SubtitleCue.start_time
        = (extract_sentences s).head?.map (fun _ => (0 : Rat))
    ∧ List.Chain' (fun a b => b.start_time = a.end_time) (generate_subtitle_timings s)
    ∧ (generate_subtitle_timings s = [] ↔ extract_sentences s = []) := by
  refine ⟨subtitle_timings_from_map_text 0 _, ?_,
    subtitle_timings_from_chain 0 _, subtitle_timings_from_eq_nil 0 _⟩
  unfold generate_subtitle_timings
  cases extract_sentences s with
  | nil => rfl
  | cons a rest => simp [subtitle_timings_from]

/-- Witness for C5 at the concrete narration `"Hi there. Bye."`. -/
theorem C5_witness :
    (generate_subtitle_timings "Hi there. Bye.").map SubtitleCue.text
        = extract_sentences "Hi there. Bye."
    ∧ (generate_subtitle_timings "Hi there. Bye.").head?.map SubtitleCue.start_time
        = (extract_sentences "Hi there. Bye.").head?.map (fun _ => (0 : Rat))
    ∧ List.Chain' (fun a b => b.start_time = a.end_time)
        (generate_subtitle_timings "Hi there. Bye.")
    ∧ (generate_subtitle_timings "Hi there. Bye." = []
        ↔ extract_sentences "Hi there. Bye." = []) :=
  C5_subtitle_cue_contiguity "Hi there. Bye."

/-- C6 (amended): the final cue's `end_time` is the reading-rate total
`sum of word_count / 200 * 60` over the segments — the allocator never
receives, and does not rescale to, a requested total duration — and
the cue sequence is empty exactly when the text has no non-empty
sentence segment (not only when the text itself is empty). -/
theorem C6_final_cue_reading_rate_total (s : String) :
    ((generate_subtitle_timings s).getLast?.map SubtitleCue.end_time
      = if extract_sentences s = [] then none
        else some (((extract_sentences s).map sentence_duration).sum))
    ∧ (generate_subtitle_timings s = [] ↔ extract_sentences s = []) := by
  refine ⟨?_, subtitle_timings_from_eq_nil 0 _⟩
  unfold generate_subtitle_timings
  by_cases h : extract_sentences s = []
  · rw [if_pos h, h]
    rfl
  · rw [if_neg h, subtitle_timings_from_getLast _ 0 h, zero_add]

/-- Witness for C6 at the concrete narration `"Go now. Stop."`. -/
theorem C6_witness :
    ((generate_subtitle_timings "Go now. Stop.").getLast?.map SubtitleCue.end_time
      = if extract_sentences "Go now. Stop." = [] then none
        else some (((extract_sentences "Go now. Stop.").map sentence_duration).sum))
    ∧ (generate_subtitle_timings "Go now. Stop." = []
        ↔ extract_sentences "Go now. Stop." = []) :=
  C6_final_cue_reading_rate_total "Go now. Stop."

/-- C6 counterexample: for the non-empty narration `"Hello world."`
(2 words) the final cue ends at `2 / 200 * 60 = 3/5` seconds — not at
the requested total duration (60 seconds, the default
`script_length_seconds`) — and the non-empty, punctuation-only text
`"..."` yields an empty cue sequence even though the input text is not
empty. -/
theorem C6_counterexample :
    (generate_subtitle_timings "Hello world.").getLast?.map SubtitleCue.end_time
      = some ((3 : Rat) / 5)
    ∧ ((3 : Rat) / 5) ≠ 60
    ∧ generate_subtitle_timings "..." = []
    ∧ ("..." : String) ≠ "" := by
  refine ⟨?_, by norm_num, by decide, by decide⟩
  have h1 : extract_sentences "Hello world." = ["Hello world"] := by decide
  rw [generate_subtitle_timings, h1]
  have h2 : sentence_duration "Hello world" = 3 / 5 := by
    have hw : py_split_whitespace "Hello world" = ["Hello", "world"] := by decide
    rw [sentence_duration, hw]
    norm_num
  simp [subtitle_timings_from, h2]

/-- C7 (amended): the pruning pass keeps a record exactly when
`metadata.get('timestamp', 0) > cutoff`; records with a timestamp older
than the cutoff are removed — but so are records lacking a timestamp,
which are treated as timestamp `0` (maximally old) and survive only
when the cutoff `now - max_age_days·86400` is itself negative, not
"never-expiring" as claimed. -/
theorem C7_prune_timestampless_removed (now max_age_days : Rat)
    (hashes : List (String × HashMetadata)) (record : String × HashMetadata)
    (hmem : record ∈ hashes) :
    (record.2.timestamp = none →
      (record ∈ cleanup_old_hashes now max_age_days hashes
        ↔ now - max_age_days * 24 * 60 * 60 < 0))
    ∧ (∀ ts : Rat, record.2.timestamp = some ts →
      (record ∈ cleanup_old_hashes now max_age_days hashes
        ↔ now - max_age_days * 24 * 60 * 60 < ts)) := by
  unfold cleanup_old_hashes metadata_timestamp
  constructor
  · intro h
    rw [List.mem_filter]
    rw [h]
    simp [hmem]
  · intro ts h
    rw [List.mem_filter]
    rw [h]
    simp [hmem]

/-- Witness for C7 at a concrete run: `now` = 1.7e9 (a 2023 epoch
second), `max_age_days` = 30, one record without a timestamp. -/
theorem C7_witness :
    (("h", ({ } : HashMetadata)) ∈
        cleanup_old_hashes 1700000000 30 [("h", ({ } : HashMetadata))]
      ↔ (1700000000 - 30 * 24 * 60 * 60 : Rat) < 0) :=
  (C7_prune_timestampless_removed 1700000000 30 _ _ (by simp)).1 rfl

/-- C7 counterexample: that record — no timestamp, non-empty metadata —
is removed by the pruning pass, while the claim says it must still be
present. -/
theorem C7_counterexample :
    cleanup_old_hashes 1700000000 30
      [("deadbeef", { extra := [("title", "t")] })] = [] := by
  unfold cleanup_old_hashes metadata_timestamp
  rw [List.filter_cons]
  norm_num

/-! ### Supporting lemmas on the pipeline -/

/-- Every processed item ends in a terminal status: `"uploaded"`, or
`"failed"` with an error recorded.  (In particular no
skipped-duplicate status is ever assigned.) -/
theorem process_work_item_terminal (hashFn : String → String) (cfg : Config)
    (nowIso nowStr : String) (o : StageOracles)
    (script_store upload_store : HashFile) (work_item : WorkItem) :
    (process_work_item hashFn cfg nowIso nowStr o script_store upload_store
        work_item).work_item.status = "uploaded"
    ∨ ((process_work_item hashFn cfg nowIso nowStr o script_store upload_store
          work_item).work_item.status = "failed"
        ∧ (process_work_item hashFn cfg nowIso nowStr o script_store upload_store
            work_item).work_item.error.isSome = true) := by
  simp only [process_work_item]
  repeat' split
  all_goals simp

/-- The controller's loop produces exactly one outcome per fetched
item. -/
theorem run_pipeline_length (hashFn : String → String) (cfg : Config)
    (nowIso nowStr : String) (o : WorkItem → StageOracles) :
    ∀ (work_items : List WorkItem) (script_store upload_store : HashFile),
    (run_pipeline hashFn cfg nowIso nowStr o script_store upload_store
        work_items).work_items.length = work_items.length := by
  intro work_items
  induction work_items with
  | nil => intro s u; rfl
  | cons it rest ih =>
      intro s u
      simp [run_pipeline, ih]

/-- Every item of a run ends terminal (`process_work_item_terminal`
lifted over the loop). -/
theorem run_pipeline_mem_terminal (hashFn : String → String) (cfg : Config)
    (nowIso nowStr : String) (o : WorkItem → StageOracles) :
    ∀ (work_items : List WorkItem) (script_store upload_store : HashFile),
    ∀ x ∈ (run_pipeline hashFn cfg nowIso nowStr o script_store upload_store
        work_items).work_items,
      x.status = "uploaded" ∨ (x.status = "failed" ∧ x.error.isSome = true) := by
  intro work_items
  induction work_items with
  | nil =>
      intro s u x hx
      simp [run_pipeline] at hx
  | cons it rest ih =>
      intro s u x hx
      rw [run_pipeline] at hx
      rcases List.mem_cons.mp hx with hx | hx
      · rw [hx]
        exact process_work_item_terminal hashFn cfg nowIso nowStr (o it) s u it
      · exact ih _ _ x hx

/-- C3 (amended): on a script-stage dedup hit, `generate_script`
returns `None` without invoking any generation call and without
touching the stores, the pipeline then sets `status =
"script_generated"`, and `script["content"]` raises a `TypeError`
caught by the per-item handler — so the item ends with `status =
"failed"` (not any skipped-duplicate status, which does not exist in
the code) with the TypeError text recorded, and no stage function for
that or any later stage runs.  On a publish-stage dedup hit,
`upload_video` returns `None` without invoking the upload call, and
the item ends with `status = "uploaded"` and a `None` URL. -/
theorem C3_dedup_hit_behavior (hashFn : String → String) (cfg : Config)
    (nowIso nowStr : String) (o : StageOracles)
    (script_store upload_store : HashFile) (work_item : WorkItem) :
    (check_duplicate_content
        (generate_script_hash hashFn
          (script_checkpoint_fields work_item.title work_item.summary work_item.keywords))
        script_store = true →
      process_work_item hashFn cfg nowIso nowStr o script_store upload_store work_item
        = ⟨{ work_item with
             script := some none
             status := "failed"
             error := some none_type_subscript_error },
           script_store, upload_store, []⟩)
    ∧ (∀ content hook cta audio_path broll_paths video_path thumbnail_path,
        check_duplicate_content
            (generate_script_hash hashFn
              (script_checkpoint_fields work_item.title work_item.summary work_item.keywords))
            script_store = false →
        o.script_content = .ok content →
        o.hook content = .ok hook →
        o.cta content = .ok cta →
        o.generate_audio content = .ok audio_path →
        o.download_footage work_item.keywords cfg.script_length = .ok broll_paths →
        o.compose_video audio_path broll_paths (generate_subtitle_timings content)
          = .ok video_path →
        o.generate_thumbnail work_item.title work_item.keywords = .ok thumbnail_path →
        check_duplicate_content (hashFn (work_item.title ++ "|" ++ content))
            upload_store = true →
          (process_work_item hashFn cfg nowIso nowStr o script_store upload_store
              work_item).work_item.status = "uploaded"
          ∧ (process_work_item hashFn cfg nowIso nowStr o script_store upload_store
              work_item).work_item.youtube_url = some none
          ∧ (process_work_item hashFn cfg nowIso nowStr o script_store upload_store
              work_item).upload_store = upload_store
          ∧ (process_work_item hashFn cfg nowIso nowStr o script_store upload_store
              work_item).invoked
            = ["_generate_script_content", "_generate_hook", "_generate_cta",
               "generate_audio", "download_footage", "compose_video",
               "generate_thumbnail"]) := by
  constructor
  · intro hdup
    simp [process_work_item, generate_script, hdup]
  · intro content hook cta audio_path broll_paths video_path thumbnail_path
      hnodup hc hh hk ha hb hv ht hud
    simp [process_work_item, generate_script, upload_video, hnodup, hc, hh, hk,
      ha, hb, hv, ht, hud]

/-- C3 counterexample: a work item whose script-stage fingerprint is
already recorded (as a bare line, for the identity digest) ends with
`status = "failed"`, not a skipped-duplicate status. -/
theorem C3_counterexample :
    (process_work_item id { } "t0" "0.0" oracles_ok script_dup_store none
        item_fed).work_item.status = "failed"
    ∧ ("failed" : String) ≠ "skipped_duplicate"
    ∧ ("failed" : String) ≠ "SkippedDuplicate" :=
  ⟨rfl, by decide, by decide⟩

/-- Witness for C3 at concrete runs: a script-stage hit (the store
holds `item_fed`'s fingerprint) and a publish-stage hit (the upload
store holds `TA|Hello world.`). -/
theorem C3_witness :
    (process_work_item id { } "t0" "0.0" oracles_ok script_dup_store none item_fed
        = ⟨{ item_fed with
             script := some none
             status := "failed"
             error := some none_type_subscript_error },
           script_dup_store, none, []⟩)
    ∧ ((process_work_item id { } "t0" "0.0" oracles_ok none upload_dup_store
          item_fed).work_item.status = "uploaded"
      ∧ (process_work_item id { } "t0" "0.0" oracles_ok none upload_dup_store
          item_fed).work_item.youtube_url = some none
      ∧ (process_work_item id { } "t0" "0.0" oracles_ok none upload_dup_store
          item_fed).upload_store = upload_dup_store
      ∧ (process_work_item id { } "t0" "0.0" oracles_ok none upload_dup_store
          item_fed).invoked
        = ["_generate_script_content", "_generate_hook", "_generate_cta",
           "generate_audio", "download_footage", "compose_video",
           "generate_thumbnail"]) := by
  constructor
  · exact (C3_dedup_hit_behavior id { } "t0" "0.0" oracles_ok script_dup_store none
      item_fed).1 (by decide)
  · exact (C3_dedup_hit_behavior id { } "t0" "0.0" oracles_ok none upload_dup_store
      item_fed).2 "Hello world." "hk" "ct" "audio.mp3" ["broll.mp4"] "video.mp4"
      "thumb.png" (by decide) rfl rfl rfl rfl rfl rfl rfl (by decide)

/-- C8: no exception escapes `process_work_item` — each item ends
terminal (`"uploaded"`, or `"failed"` with the error recorded), the run
produces one outcome per fetched item (so a failing item never aborts
the loop over the others), and a stage exception (here: the footage
download raising `e`) marks exactly that item failed with `e` recorded
and stops its processing — no later stage function is invoked. -/
theorem C8_failure_isolation (hashFn : String → String) (cfg : Config)
    (nowIso nowStr : String) (o : WorkItem → StageOracles)
    (script_store upload_store : HashFile) (work_items : List WorkItem) :
    ((run_pipeline hashFn cfg nowIso nowStr o script_store upload_store
        work_items).work_items.length = work_items.length)
    ∧ (∀ x ∈ (run_pipeline hashFn cfg nowIso nowStr o script_store upload_store
          work_items).work_items,
        x.status = "uploaded" ∨ (x.status = "failed" ∧ x.error.isSome = true))
    ∧ (∀ (item : WorkItem) (s u : HashFile) (content hook cta audio_path e : String),
        check_duplicate_content
            (generate_script_hash hashFn
              (script_checkpoint_fields item.title item.summary item.keywords))
            s = false →
        (o item).script_content = .ok content →
        (o item).hook content = .ok hook →
        (o item).cta content = .ok cta →
        (o item).generate_audio content = .ok audio_path →
        (o item).download_footage item.keywords cfg.script_length = .error e →
          (process_work_item hashFn cfg nowIso nowStr (o item) s u
              item).work_item.status = "failed"
          ∧ (process_work_item hashFn cfg nowIso nowStr (o item) s u
              item).work_item.error = some e
          ∧ "compose_video" ∉ (process_work_item hashFn cfg nowIso nowStr (o item) s u
              item).invoked
          ∧ "generate_thumbnail" ∉ (process_work_item hashFn cfg nowIso nowStr (o item) s u
              item).invoked
          ∧ "_upload_video_file" ∉ (process_work_item hashFn cfg nowIso nowStr (o item) s u
              item).invoked) := by
  refine ⟨run_pipeline_length hashFn cfg nowIso nowStr o work_items script_store upload_store,
    run_pipeline_mem_terminal hashFn cfg nowIso nowStr o work_items script_store upload_store,
    ?_⟩
  intro item s u content hook cta audio_path e hnodup hc hh hk ha hb
  simp [process_work_item, generate_script, hnodup, hc, hh, hk, ha, hb]

/-- Witness for C8: the footage download raises `"pexels down"`; the
item ends failed with that error recorded and no later stage invoked. -/
theorem C8_witness :
    (process_work_item id { } "t0" "0.0" oracles_broll_fail none none
        item_fed).work_item.status = "failed"
    ∧ (process_work_item id { } "t0" "0.0" oracles_broll_fail none none
        item_fed).work_item.error = some "pexels down"
    ∧ "compose_video" ∉ (process_work_item id { } "t0" "0.0" oracles_broll_fail none none
        item_fed).invoked
    ∧ "generate_thumbnail" ∉ (process_work_item id { } "t0" "0.0" oracles_broll_fail none none
        item_fed).invoked
    ∧ "_upload_video_file" ∉ (process_work_item id { } "t0" "0.0" oracles_broll_fail none none
        item_fed).invoked :=
  (C8_failure_isolation id { } "t0" "0.0" (fun _ => oracles_broll_fail) none none
      [item_fed]).2.2 item_fed none none "Hello world." "hk" "ct" "audio.mp3"
    "pexels down" (by decide) rfl rfl rfl rfl rfl

/-- C9 (amended): the controller's loop simply processes every fetched
work item — it keeps no count of uploaded items and enforces no
per-run cap, producing exactly one outcome per fetched item no matter
how many uploads have already succeeded. -/
theorem C9_no_upload_cap (hashFn : String → String) (cfg : Config)
    (nowIso nowStr : String) (o : WorkItem → StageOracles)
    (work_items : List WorkItem) (script_store upload_store : HashFile) :
    (run_pipeline hashFn cfg nowIso nowStr o script_store upload_store
        work_items).work_items.length = work_items.length :=
  run_pipeline_length hashFn cfg nowIso nowStr o work_items script_store upload_store

/-- Witness for C9 at a concrete two-item run. -/
theorem C9_witness :
    (run_pipeline id { } "t0" "0.0" (fun _ => oracles_broll_fail) none none
        [item_fed, item_ecb]).work_items.length = [item_fed, item_ecb].length :=
  C9_no_upload_cap id { } "t0" "0.0" (fun _ => oracles_broll_fail)
    [item_fed, item_ecb] none none

/-- C9 counterexample: with every external call succeeding, a run over
two fetched items uploads both — under the claimed per-run cap of 1
(the smallest cap) the second item would have been left unprocessed,
but the code has no cap and no uploaded-count. -/
theorem C9_counterexample :
    ((run_pipeline id { } "t0" "0.0" (fun _ => oracles_ok) none none
        [item_fed, item_ecb]).work_items.map WorkItem.status)
      = ["uploaded", "uploaded"] := by
  rfl

end YtFinance
